import Mathlib

/-!
Shallow embedding of the event-collection core of the `uniswap_relay`
repository (Rust), together with theorems settling the frozen claims about
its specification.

Conventions of the embedding:
* Rust `String` is Lean `String`; the inputs relevant to the claims are
  ASCII, so Rust's byte-oriented `len` and Unicode `is_alphanumeric`
  coincide with Lean's `String.length` and `Char.isAlphanum` on them.
* Rust `u64`/`u32`/`u8` counters become `Nat` (with an explicit `% 256`
  where the source truncates with `as u8`); `f64` delay arithmetic becomes
  exact `Rat` arithmetic (the multipliers occurring in the source and its
  tests, such as 2.0, are exactly representable, so no rounding is lost),
  with the `as u64` float-to-integer cast modelled as `Int.toNat ∘ Int.floor`.
* fallible Rust functions returning `Result<T, E>` become `Except String T`.
* `serde_json::Value` is modelled by the inductive `Json` below, with
  objects as association lists (`get` returns the first binding of a key,
  which agrees with `serde_json` on the duplicate-free objects produced by
  GraphQL responses).
* Side effects that only log (`eprintln!`, `tracing`) are dropped; the
  `timestamp: Utc::now()` field of `SwapEvent` and the enrichment setters
  never read by the modelled code paths are omitted from the Lean record.
-/

namespace UniswapRelay

/-! ## String helpers (models of the Rust standard-library predicates used) -/

/-- Model of Rust `str::starts_with` on `List Char`. -/
def listStartsWith : List Char → List Char → Bool
  | _, [] => true
  | [], _ :: _ => false
  | a :: as, b :: bs => a = b && listStartsWith as bs

/-- Model of Rust `str::contains(pattern)` (substring containment). -/
def listContainsSeq : List Char → List Char → Bool
  | [], pat => pat.isEmpty
  | l@(_ :: rest), pat => listStartsWith l pat || listContainsSeq rest pat

/-- `strContainsSub s pat` models Rust `s.contains(pat)`. -/
def strContainsSub (s pat : String) : Bool :=
  listContainsSeq s.data pat.data

/-- Model of Rust `str::starts_with` (kept on `List Char` underneath so that
closed instances reduce by computation). -/
def strStartsWith (s pat : String) : Bool :=
  listStartsWith s.data pat.data

/-- Model of Rust `str::is_empty`. -/
def strIsEmpty (s : String) : Bool :=
  s.data.isEmpty

/-- Model of the amount check `chars().all(|c| c.is_ascii_digit() || c == '.')`
used by `SwapEventBuilder` (src/model.rs). -/
def isNumericAmount (s : String) : Bool :=
  s.data.all (fun c => c.isDigit || c = '.')

/-- Model of the heuristic in src/service/swap_collector.rs that flags a token
id as a Solana-style public key: `len() == 44` and every char alphanumeric or
an underscore. -/
def isSolanaStyleKey (s : String) : Bool :=
  s.length = 44 && s.data.all (fun c => c.isAlphanum || c = '_')

/-- `true` iff an `Except` value is `ok` (model of Rust `Result::is_ok`). -/
def exceptIsOk {ε α : Type} : Except ε α → Bool
  | .ok _ => true
  | .error _ => false

/-- Strip an `Except` to its success value (model of Rust `Result::ok`). -/
def exceptToOption {ε α : Type} : Except ε α → Option α
  | .ok a => some a
  | .error _ => none

/-! ## Data model (src/model.rs) -/

/-- `UniswapVersion` (src/model.rs): the two upstream source variants. -/
inductive UniswapVersion : Type
  | V2
  | V3
deriving Repr, DecidableEq

/-- The `Display` impl for `UniswapVersion` (src/model.rs lines 657-664):
V2 renders as `"v2"` and V3 as `"v3"` (lowercase). -/
def UniswapVersion.display : UniswapVersion → String
  | .V2 => "v2"
  | .V3 => "v3"

/-- `TokenInfo` (src/model.rs). The `f64` price fields are modelled as `Rat`;
they are never set by the modelled code paths. -/
structure TokenInfo where
  address : String
  symbol : String
  name : String
  decimals : Nat
  logo_uri : Option String := none
  price_usd : Option Rat := none
  market_cap : Option Rat := none
deriving Repr, DecidableEq

/-- `PoolInfo` (src/model.rs). `apy` and `created_at` are always `None` in
`extract_pool_info`, the only modelled producer; `created_at`'s `DateTime`
type is modelled as `Unit`. -/
structure PoolInfo where
  address : String
  token0 : String
  token1 : String
  fee_tier : Option Nat := none
  liquidity : Option String := none
  volume_24h : Option String := none
  fees_24h : Option String := none
  apy : Option Rat := none
  created_at : Option Unit := none
deriving Repr, DecidableEq

/-- `SwapEvent` (src/model.rs), restricted to the fields the modelled code
paths read or write. `timestamp` (set to `Utc::now()` at construction) is
omitted; the optional USD/fee/gas enrichment fields are always `None` in the
modelled paths and are omitted as well, except `pool_info`, which
`parse_v2_swap_event`/`parse_v3_swap_event` fill in. -/
structure SwapEvent where
  id : String
  version : UniswapVersion
  block_number : Nat := 0
  transaction_hash : String
  pool_address : String
  token_in : TokenInfo
  token_out : TokenInfo
  amount_in : String
  amount_out : String
  user_address : String
  pool_info : Option PoolInfo := none
deriving Repr, DecidableEq

/-- `SwapEventBuilder` (src/model.rs): every field optional until `build`. -/
structure SwapEventBuilder where
  version : Option UniswapVersion := none
  transaction_hash : Option String := none
  pool_address : Option String := none
  token_in : Option TokenInfo := none
  token_out : Option TokenInfo := none
  amount_in : Option String := none
  amount_out : Option String := none
  user_address : Option String := none
deriving Repr, DecidableEq

/-- `SwapEventBuilder::validate` (src/model.rs lines 763-846): the list of
warnings for the current builder state, in source order. -/
def SwapEventBuilder.validate (b : SwapEventBuilder) : List String :=
  (match b.version with
    | none => ["Version is not set"]
    | some _ => []) ++
  (match b.transaction_hash with
    | none => ["Transaction hash is not set"]
    | some hash => if strIsEmpty hash then ["Transaction hash is empty"] else []) ++
  (match b.pool_address with
    | none => ["Pool address is not set"]
    | some addr =>
        if strIsEmpty addr then ["Pool address is empty"]
        else if !strStartsWith addr "0x" then ["Pool address doesn't start with 0x"]
        else []) ++
  (match b.token_in with
    | none => ["Token in is not set"]
    | some token =>
        (if strIsEmpty token.address then ["Token in address is empty"]
         else if !strStartsWith token.address "0x" then
           ["Token in address doesn't start with 0x"]
         else []) ++
        (if strIsEmpty token.symbol then ["Token in symbol is empty"] else [])) ++
  (match b.token_out with
    | none => ["Token out is not set"]
    | some token =>
        (if strIsEmpty token.address then ["Token out address is empty"]
         else if !strStartsWith token.address "0x" then
           ["Token out address doesn't start with 0x"]
         else []) ++
        (if strIsEmpty token.symbol then ["Token out symbol is empty"] else [])) ++
  (match b.amount_in with
    | none => ["Amount in is not set"]
    | some amount =>
        if strIsEmpty amount then ["Amount in is empty"]
        else if !isNumericAmount amount then ["Amount in is not numeric"]
        else []) ++
  (match b.amount_out with
    | none => ["Amount out is not set"]
    | some amount =>
        if strIsEmpty amount then ["Amount out is empty"]
        else if !isNumericAmount amount then ["Amount out is not numeric"]
        else []) ++
  (match b.user_address with
    | none => ["User address is not set"]
    | some addr =>
        if strIsEmpty addr then ["User address is empty"]
        else if !strStartsWith addr "0x" then ["User address doesn't start with 0x"]
        else [])

/-- `SwapEventBuilder::is_ready` (src/model.rs lines 849-851). -/
def SwapEventBuilder.is_ready (b : SwapEventBuilder) : Bool :=
  b.validate.isEmpty

/-- `SwapEventBuilder::build` (src/model.rs lines 933-1030): `ok_or` chain on
the required fields, then the emptiness and digits-and-dot checks, each an
early `return Err`, then the `SwapEvent` record with
`id = format!("{}_{}", version, transaction_hash)`. -/
def SwapEventBuilder.build (b : SwapEventBuilder) : Except String SwapEvent :=
  match b.version with
  | none => .error "Version is required for SwapEvent"
  | some version =>
  match b.transaction_hash with
  | none => .error "Transaction hash is required for SwapEvent"
  | some transaction_hash =>
  match b.pool_address with
  | none => .error "Pool address is required for SwapEvent"
  | some pool_address =>
  match b.token_in with
  | none => .error "Token in is required for SwapEvent"
  | some token_in =>
  match b.token_out with
  | none => .error "Token out is required for SwapEvent"
  | some token_out =>
  match b.amount_in with
  | none => .error "Amount in is required for SwapEvent"
  | some amount_in =>
  match b.amount_out with
  | none => .error "Amount out is required for SwapEvent"
  | some amount_out =>
  match b.user_address with
  | none => .error "User address is required for SwapEvent"
  | some user_address =>
  if strIsEmpty transaction_hash then .error "Transaction hash cannot be empty"
  else if strIsEmpty pool_address then .error "Pool address cannot be empty"
  else if strIsEmpty amount_in || strIsEmpty amount_out then
    .error "Amount fields cannot be empty"
  else if strIsEmpty user_address then .error "User address cannot be empty"
  else if strIsEmpty token_in.address || strIsEmpty token_out.address then
    .error "Token addresses cannot be empty"
  else if !isNumericAmount amount_in then
    .error "Amount in must be a valid numeric value"
  else if !isNumericAmount amount_out then
    .error "Amount out must be a valid numeric value"
  else .ok
    { id := version.display ++ "_" ++ transaction_hash
      version := version
      block_number := 0
      transaction_hash := transaction_hash
      pool_address := pool_address
      token_in := token_in
      token_out := token_out
      amount_in := amount_in
      amount_out := amount_out
      user_address := user_address
      pool_info := none }

/-- Spec-side acceptance predicate for the amended form of the fail-closed
claim: `build` succeeds exactly when every required field is set, the
transaction hash, pool address, user address and both token addresses are
non-empty, and both amount strings are non-empty and digits-and-dot only.
(Address-prefix violations are deliberately absent: the source reports them
only as warnings.) -/
def buildAcceptanceSpec (b : SwapEventBuilder) : Bool :=
  match b.version, b.transaction_hash, b.pool_address, b.token_in, b.token_out,
        b.amount_in, b.amount_out, b.user_address with
  | some _, some tx, some pool, some tin, some tout, some ain, some aout,
    some user =>
      !(strIsEmpty tx) && !(strIsEmpty pool) && !(strIsEmpty ain) && !(strIsEmpty aout) &&
      !(strIsEmpty user) && !(strIsEmpty tin.address) && !(strIsEmpty tout.address) &&
      isNumericAmount ain && isNumericAmount aout
  | _, _, _, _, _, _, _, _ => false

/-! ## Typed subgraph records and the normalizers built on them
(src/model.rs `from_v2_subgraph` / `from_v3_subgraph`) -/

/-- `GraphQLToken` (src/model.rs). -/
structure GraphQLToken where
  id : String
  symbol : String
  name : String
  decimals : Nat
  total_supply : Option String := none
  volume : Option String := none
  volume_usd : Option String := none
deriving Repr, DecidableEq

/-- `GraphQLPair` (src/model.rs), restricted to the fields the modelled code
reads (`from_v2_subgraph` reads only `token0`/`token1`). -/
structure GraphQLPair where
  id : String
  token0 : GraphQLToken
  token1 : GraphQLToken
  reserve0 : String := "0"
  reserve1 : String := "0"
  total_supply : String := "0"
deriving Repr, DecidableEq

/-- `UniswapV2SwapEvent` (src/model.rs). -/
structure UniswapV2SwapEvent where
  id : String
  timestamp : String
  pair : GraphQLPair
  sender : String
  amount0_in : String
  amount1_in : String
  amount0_out : String
  amount1_out : String
  «to» : String
  log_index : Nat := 0
  amount_usd : Option String := none
deriving Repr, DecidableEq

/-- `GraphQLV3Pool` (src/model.rs), restricted to the fields the modelled
code reads. -/
structure GraphQLV3Pool where
  id : String
  token0 : GraphQLToken
  token1 : GraphQLToken
  fee_tier : Nat := 0
  liquidity : String := "0"
deriving Repr, DecidableEq

/-- `UniswapV3SwapEvent` (src/model.rs). `tick : i32` becomes `Int`. -/
structure UniswapV3SwapEvent where
  id : String
  timestamp : String
  pool : GraphQLV3Pool
  token0 : String
  token1 : String
  sender : String
  recipient : String
  origin : String
  amount0 : String
  amount1 : String
  amount_usd : Option String := none
  sqrt_price_x96 : String := "0"
  liquidity : String := "0"
  tick : Int := 0
deriving Repr, DecidableEq

/-- The `TokenInfo` a normalizer makes from a `GraphQLToken` (the repeated
literal struct in `from_v2_subgraph`/`from_v3_subgraph`): address, symbol,
name, decimals copied; the optional fields `None`. -/
def tokenInfoOf (t : GraphQLToken) : TokenInfo :=
  { address := t.id, symbol := t.symbol, name := t.name, decimals := t.decimals }

/-- Value of a non-empty all-digit run of chars. -/
def digitsVal (l : List Char) : Nat :=
  l.foldl (fun n c => n * 10 + (c.toNat - 48)) 0

/-- Model of Rust `str::parse::<f64>()` restricted to plain decimal literals:
an optional sign, then digits with at most one decimal point (at least one
digit overall). The value is kept exact as a `Rat`. Strings outside this
fragment (scientific notation, `inf`, `NaN`, …) return `none`; every theorem
below applies the parser only to plain decimal strings, on which it agrees
with Rust. -/
def parseF64 (s : String) : Option Rat :=
  let core : List Char → Option Rat := fun l =>
    match l.splitOn '.' with
    | [intPart] =>
        if intPart ≠ [] ∧ intPart.all Char.isDigit then
          some (digitsVal intPart : Rat)
        else none
    | [intPart, fracPart] =>
        if (intPart ≠ [] ∨ fracPart ≠ []) ∧ intPart.all Char.isDigit ∧
            fracPart.all Char.isDigit then
          some ((digitsVal intPart : Rat) +
            (digitsVal fracPart : Rat) / (10 : Rat) ^ fracPart.length)
        else none
    | _ => none
  match s.data with
  | [] => none
  | '-' :: rest => (core rest).map (fun q => -q)
  | '+' :: rest => core rest
  | l => core l

/-- `SwapEvent::from_v2_subgraph` (src/model.rs lines 310-383): the side
whose `amount0_in`/`amount0_out` string differs from `"0"` selects token0,
otherwise token1, for the in/out token and amount; then the builder. -/
def SwapEvent.from_v2_subgraph (v2 : UniswapV2SwapEvent)
    (pool_address user_address : String) : Except String SwapEvent :=
  let token_in :=
    if v2.amount0_in ≠ "0" then tokenInfoOf v2.pair.token0
    else tokenInfoOf v2.pair.token1
  let token_out :=
    if v2.amount0_out ≠ "0" then tokenInfoOf v2.pair.token0
    else tokenInfoOf v2.pair.token1
  let amount_in := if v2.amount0_in ≠ "0" then v2.amount0_in else v2.amount1_in
  let amount_out :=
    if v2.amount0_out ≠ "0" then v2.amount0_out else v2.amount1_out
  SwapEventBuilder.build
    { version := some .V2
      transaction_hash := some v2.id
      pool_address := some pool_address
      token_in := some token_in
      token_out := some token_out
      amount_in := some amount_in
      amount_out := some amount_out
      user_address := some user_address }

/-- `SwapEvent::from_v3_subgraph` (src/model.rs lines 387-460): the sign of
`amount0.parse::<f64>().unwrap_or(0.0)` selects the direction — negative
picks token0/amount0 as input, positive picks token0/amount0 as output — and
then the builder. -/
def SwapEvent.from_v3_subgraph (v3 : UniswapV3SwapEvent)
    (pool_address user_address : String) : Except String SwapEvent :=
  let a0 : Rat := (parseF64 v3.amount0).getD 0
  let token_in :=
    if a0 < 0 then tokenInfoOf v3.pool.token0 else tokenInfoOf v3.pool.token1
  let token_out :=
    if a0 > 0 then tokenInfoOf v3.pool.token0 else tokenInfoOf v3.pool.token1
  let amount_in := if a0 < 0 then v3.amount0 else v3.amount1
  let amount_out := if a0 > 0 then v3.amount0 else v3.amount1
  SwapEventBuilder.build
    { version := some .V3
      transaction_hash := some v3.id
      pool_address := some pool_address
      token_in := some token_in
      token_out := some token_out
      amount_in := some amount_in
      amount_out := some amount_out
      user_address := some user_address }

/-! ## JSON model (`serde_json::Value`) and the pipeline parse functions
(src/service/swap_collector.rs) -/

/-- Model of `serde_json::Value`. Numbers are restricted to integers (`Int`);
the swap records the modelled code reads carry amounts as strings and only
`decimals`/`fee_tier`/`log_index` as numbers, all integral. -/
inductive Json : Type
  | null : Json
  | bool : Bool → Json
  | num : Int → Json
  | str : String → Json
  | arr : List Json → Json
  | obj : List (String × Json) → Json

/-- `Value::get(key)` on an object: the first binding of `key`. -/
def Json.get : Json → String → Option Json
  | .obj fields, k => (fields.find? (fun p => p.1 = k)).map (fun p => p.2)
  | _, _ => none

/-- `Value::as_str`. -/
def Json.asStr : Json → Option String
  | .str s => some s
  | _ => none

/-- `Value::as_u64`. -/
def Json.asU64 : Json → Option Nat
  | .num n => if 0 ≤ n ∧ n < 2 ^ 64 then some n.toNat else none
  | _ => none

/-- `Value::as_array`. -/
def Json.asArr : Json → Option (List Json)
  | .arr l => some l
  | _ => none

/-- The `TokenInfo` literal the parse functions build from a `token0`/`token1`
JSON sub-object: every field extracted with `as_str().unwrap_or("")`, and
`decimals` with `as_u64().unwrap_or(18) as u8` (the `as u8` truncates). -/
def tokenInfoFromJson (t : Json) : TokenInfo :=
  { address := ((t.get "id").bind Json.asStr).getD ""
    symbol := ((t.get "symbol").bind Json.asStr).getD ""
    name := ((t.get "name").bind Json.asStr).getD ""
    decimals := (((t.get "decimals").bind Json.asU64).getD 18) % 256 }

/-- `SwapEventCollector::extract_pool_info` (src/service/swap_collector.rs
lines 790-817); `fee_tier` uses `as_u64` then `as u32` (truncation). -/
def extract_pool_info (pool_data : Json) : Option PoolInfo := do
  let token0 ← pool_data.get "token0"
  let token1 ← pool_data.get "token1"
  let address ← (pool_data.get "id").bind Json.asStr
  let t0 ← (token0.get "id").bind Json.asStr
  let t1 ← (token1.get "id").bind Json.asStr
  pure
    { address := address
      token0 := t0
      token1 := t1
      fee_tier := ((pool_data.get "fee_tier").bind Json.asU64).map (· % 2 ^ 32)
      liquidity := (pool_data.get "liquidity").bind Json.asStr
      volume_24h := (pool_data.get "volume_usd").bind Json.asStr
      fees_24h := (pool_data.get "fees_usd").bind Json.asStr }

/-- The guard on a raw record's `instruction` field:
`instruction.as_str().unwrap_or("").contains("solana")`. -/
def hasSolanaInstruction (swap_data : Json) : Bool :=
  match swap_data.get "instruction" with
  | some instr => strContainsSub ((instr.asStr).getD "") "solana"
  | none => false

/-- The guard on a token sub-object's `id`: present, a string, and
Solana-style (length 44, alphanumeric-or-underscore). -/
def tokenIdLooksSolana (token : Json) : Bool :=
  match (token.get "id").bind Json.asStr with
  | some s => isSolanaStyleKey s
  | none => false

/-- `SwapEventCollector::parse_v2_swap_event` (src/service/swap_collector.rs
lines 512-661): Solana-instruction guard, structural checks on
`pair`/`token0`/`token1`, Solana-key guards, then the builder on
`amount0_in`/`amount1_out` (each `as_str().unwrap_or("0")`), `sender`,
`pair.id` and the record's `id`, and finally `add_pool_info`. -/
def parse_v2_swap_event (swap_data : Json) : Except String SwapEvent :=
  if hasSolanaInstruction swap_data then
    .error "Solana instruction data found in Ethereum V2 swap event"
  else
  match swap_data.get "pair" with
  | none => .error "Missing pair data"
  | some pair =>
  match pair.get "token0" with
  | none => .error "Missing token0 data"
  | some token0 =>
  if tokenIdLooksSolana token0 then
    .error "Solana-style public key found in Ethereum token0"
  else
  match pair.get "token1" with
  | none => .error "Missing token1 data"
  | some token1 =>
  if tokenIdLooksSolana token1 then
    .error "Solana-style public key found in Ethereum token1"
  else
    let amount_in := ((swap_data.get "amount0_in").bind Json.asStr).getD "0"
    let amount_out := ((swap_data.get "amount1_out").bind Json.asStr).getD "0"
    let user_address := ((swap_data.get "sender").bind Json.asStr).getD ""
    let pool_address := ((pair.get "id").bind Json.asStr).getD ""
    match SwapEventBuilder.build
      { version := some .V2
        transaction_hash := some (((swap_data.get "id").bind Json.asStr).getD "")
        pool_address := some pool_address
        token_in := some (tokenInfoFromJson token0)
        token_out := some (tokenInfoFromJson token1)
        amount_in := some amount_in
        amount_out := some amount_out
        user_address := some user_address } with
    | .error e => .error ("SwapEvent builder failed: " ++ e)
    | .ok ev =>
        match extract_pool_info pair with
        | some pi => .ok { ev with pool_info := some pi }
        | none => .ok ev

/-- `SwapEventCollector::parse_v3_swap_event` (src/service/swap_collector.rs
lines 664-787): Solana-instruction guard, structural checks on
`pool`/`token0`/`token1` (no Solana-key guards in the V3 path), then the
builder on `amount0`/`amount1` (each `as_str().unwrap_or("0")`), `sender`,
`pool.id` and the record's `id`, and finally `add_pool_info`. -/
def parse_v3_swap_event (swap_data : Json) : Except String SwapEvent :=
  if hasSolanaInstruction swap_data then
    .error "Solana instruction data found in Ethereum V3 swap event"
  else
  match swap_data.get "pool" with
  | none => .error "Missing pool data"
  | some pool =>
  match pool.get "token0" with
  | none => .error "Missing token0 data"
  | some token0 =>
  match pool.get "token1" with
  | none => .error "Missing token1 data"
  | some token1 =>
    let amount_in := ((swap_data.get "amount0").bind Json.asStr).getD "0"
    let amount_out := ((swap_data.get "amount1").bind Json.asStr).getD "0"
    let user_address := ((swap_data.get "sender").bind Json.asStr).getD ""
    let pool_address := ((pool.get "id").bind Json.asStr).getD ""
    match SwapEventBuilder.build
      { version := some .V3
        transaction_hash := some (((swap_data.get "id").bind Json.asStr).getD "")
        pool_address := some pool_address
        token_in := some (tokenInfoFromJson token0)
        token_out := some (tokenInfoFromJson token1)
        amount_in := some amount_in
        amount_out := some amount_out
        user_address := some user_address } with
    | .error e => .error ("SwapEvent builder failed: " ++ e)
    | .ok ev =>
        match extract_pool_info pool with
        | some pi => .ok { ev with pool_info := some pi }
        | none => .ok ev

/-! ## One poll cycle (`collect_v2_events` / `collect_v3_events`) and the
retry wrapper (src/service/swap_collector.rs) -/

/-- Observable outcome of one `collect_*_events` call: the returned `Result`
(`none` = `Ok(())`), the batch handed to `publish_batch`, and the counts fed
to `record_error` / `record_events_processed`. -/
structure CycleOutcome where
  result : Option String
  published : List SwapEvent
  errors_recorded : Nat
  events_processed : Nat
deriving Repr, DecidableEq

/-- The per-record loop of `collect_*_events`: push each successfully parsed
event, record one error per failed record. Returns the events together with
the number of `record_error` calls. -/
def processRecords (parse : Json → Except String SwapEvent)
    (records : List Json) : List SwapEvent × Nat :=
  records.foldl
    (fun acc r =>
      match parse r with
      | .ok ev => (acc.1 ++ [ev], acc.2)
      | .error _ => (acc.1, acc.2 + 1))
    ([], 0)

/-- One `collect_*_events` cycle (src/service/swap_collector.rs lines
244-355 and 392-509), abstracted over the parse function. `fetch` is the
subgraph query outcome: an error (transport/protocol, already classified by
the caller's `map_err`) or the response's optional `data` value.
`publish_error` is the outcome `publish_batch` would return if called. An
absent `swaps` key or a non-array `swaps` silently yields `Ok(())`; the
batch is published and counted only when non-empty. -/
def runCollectCycle (parse : Json → Except String SwapEvent)
    (fetch : Except String (Option Json)) (publish_error : Option String) :
    CycleOutcome :=
  match fetch with
  | .error e =>
      { result := some e, published := [], errors_recorded := 0
        events_processed := 0 }
  | .ok none =>
      { result := none, published := [], errors_recorded := 0
        events_processed := 0 }
  | .ok (some data) =>
      match (data.get "swaps").bind Json.asArr with
      | none =>
          { result := none, published := [], errors_recorded := 0
            events_processed := 0 }
      | some records =>
          let processed := processRecords parse records
          if processed.1.isEmpty then
            { result := none, published := [], errors_recorded := processed.2
              events_processed := 0 }
          else
            match publish_error with
            | some e =>
                { result := some e, published := []
                  errors_recorded := processed.2, events_processed := 0 }
            | none =>
                { result := none, published := processed.1
                  errors_recorded := processed.2
                  events_processed := processed.1.length }

/-- `collect_v2_events`, as a function of the fetch and publish outcomes. -/
def collect_v2_events : Except String (Option Json) → Option String →
    CycleOutcome :=
  runCollectCycle parse_v2_swap_event

/-- `collect_v3_events`, as a function of the fetch and publish outcomes. -/
def collect_v3_events : Except String (Option Json) → Option String →
    CycleOutcome :=
  runCollectCycle parse_v3_swap_event

/-- The `[retry]` section of `AppConfig` (src/config.rs lines 62-67);
`backoff_multiplier: f64` is modelled as an exact `Rat`. -/
structure RetryConfig where
  max_attempts : Nat
  initial_delay_ms : Nat
  max_delay_ms : Nat
  backoff_multiplier : Rat
deriving Repr, DecidableEq

/-- One delay update of the retry loop (src/service/swap_collector.rs lines
230-231 and 378-379): `delay = (delay as f64 * multiplier) as u64` (the cast
truncates toward zero and clamps below at 0) followed by
`delay = delay.min(max_delay_ms)`. -/
def nextRetryDelay (cfg : RetryConfig) (delay : Nat) : Nat :=
  min (Int.toNat ⌊(delay : Rat) * cfg.backoff_multiplier⌋) cfg.max_delay_ms

/-- The loop body of `collect_v2_events_with_retry` /
`collect_v3_events_with_retry` (src/service/swap_collector.rs lines 210-241
and 358-389). `attemptResult n` is the `Result` of the `(n+1)`-th execution
of the fetch+normalize+publish cycle (`none` = success). Returns the final
`Result` and the list of sleeps performed, in order. The loop exits once
`attempts + 1 ≥ max_attempts` on a failure, so it runs at most
`max_attempts + 1` iterations; the fuel argument starts there and is never
exhausted. -/
def retryLoop (cfg : RetryConfig) (attemptResult : Nat → Option String) :
    Nat → Nat → Nat → Option String × List Nat
  | 0, _, _ => (some "retry loop fuel exhausted", [])
  | fuel + 1, attempts, delay =>
      match attemptResult attempts with
      | none => (none, [])
      | some e =>
          if attempts + 1 ≥ cfg.max_attempts then (some e, [])
          else
            let d := nextRetryDelay cfg delay
            let rest := retryLoop cfg attemptResult fuel (attempts + 1) d
            (rest.1, d :: rest.2)

/-- `collect_*_events_with_retry`: run the retried cycle from attempt 0 with
`delay = initial_delay_ms`. -/
def collect_events_with_retry (cfg : RetryConfig)
    (attemptResult : Nat → Option String) : Option String × List Nat :=
  retryLoop cfg attemptResult (cfg.max_attempts + 1) 0 cfg.initial_delay_ms

/-! ## `ExponentialBackoff` (src/utils/backoff.rs) -/

/-- `ExponentialBackoff` (src/utils/backoff.rs). The two `Duration` fields
and the `f64` multiplier are modelled as exact `Rat` values (a `Duration` in
seconds); `mul_f64` is then plain multiplication and `powi` is `HPow`. -/
structure ExponentialBackoff where
  initial_delay : Rat
  max_delay : Rat
  multiplier : Rat
  max_attempts : Nat
  current_attempt : Nat
deriving Repr, DecidableEq

/-- `ExponentialBackoff::new`. -/
def ExponentialBackoff.new (initial_delay max_delay multiplier : Rat)
    (max_attempts : Nat) : ExponentialBackoff :=
  { initial_delay, max_delay, multiplier, max_attempts, current_attempt := 0 }

/-- `ExponentialBackoff::next_delay` (src/utils/backoff.rs lines 30-51):
`None` once `current_attempt >= max_attempts`; otherwise the initial delay on
attempt 0 and `initial_delay * multiplier ^ attempt` capped at `max_delay`
afterwards, incrementing the attempt counter. Returns the delay together
with the updated state (`&mut self` made explicit). -/
def ExponentialBackoff.next_delay (b : ExponentialBackoff) :
    Option Rat × ExponentialBackoff :=
  if b.current_attempt ≥ b.max_attempts then (none, b)
  else
    let delay :=
      if b.current_attempt = 0 then b.initial_delay
      else
        let calculated_delay := b.initial_delay * b.multiplier ^ b.current_attempt
        if calculated_delay > b.max_delay then b.max_delay else calculated_delay
    (some delay, { b with current_attempt := b.current_attempt + 1 })

/-- `ExponentialBackoff::reset` (src/utils/backoff.rs lines 54-56). -/
def ExponentialBackoff.reset (b : ExponentialBackoff) : ExponentialBackoff :=
  { b with current_attempt := 0 }

/-- `ExponentialBackoff::exhausted` (src/utils/backoff.rs lines 64-66). -/
def ExponentialBackoff.exhausted (b : ExponentialBackoff) : Bool :=
  b.current_attempt ≥ b.max_attempts

/-! ## GraphQL client response handling (src/subgraph/client.rs) -/

/-- `GraphQLError` (src/model.rs lines 108-113); locations/path dropped to
their presence, which no modelled code reads. -/
structure GraphQLError where
  message : String
  locations : Option (List (Nat × Nat)) := none
  path : Option (List String) := none
deriving Repr, DecidableEq

/-- `PoolQueryResult` (src/model.rs lines 102-106): the deserialized GraphQL
response, `data` and `errors` both optional. -/
structure PoolQueryResult where
  data : Option Json
  errors : Option (List GraphQLError)

/-- The GraphQL-error check at the end of `SubgraphClient::query_subgraph`
(src/subgraph/client.rs lines 84-95): a present, non-empty `errors` array is
a hard failure carrying the joined messages; otherwise the result is
returned unchanged. -/
def checkGraphQLErrors (result : PoolQueryResult) :
    Except String PoolQueryResult :=
  match result.errors with
  | some errors =>
      if !errors.isEmpty then
        .error (String.intercalate "; " (errors.map (fun e => e.message)))
      else .ok result
  | none => .ok result

/-- `SubgraphClient::query_subgraph` (src/subgraph/client.rs lines 47-96) as
a function of the transport outcome: a send/receive error, or a status code
with the deserialized body (`none` when deserialization fails). Non-2xx
status and deserialization failure are distinct error kinds; a successfully
deserialized response then goes through `checkGraphQLErrors`. -/
def query_subgraph (send : Except String (Nat × Option PoolQueryResult)) :
    Except String PoolQueryResult :=
  match send with
  | .error e => .error ("HTTP error: " ++ e)
  | .ok (status, body) =>
      if !(200 ≤ status ∧ status < 300) then
        .error ("HTTP error: status " ++ toString status)
      else
        match body with
        | none => .error "Parsing error"
        | some result => checkGraphQLErrors result

/-! ## Health check (src/service/swap_collector.rs, src/subgraph/client.rs,
src/redis/publisher.rs) -/

/-- `SubgraphClient::test_connectivity` (src/subgraph/client.rs lines
348-372): queries both subgraphs, logs `OK`/`FAILED` for each, and returns
`Ok(())` unconditionally — the two query outcomes never reach the return
value. -/
def test_connectivity (_v2_query _v3_query : Except String Unit) :
    Except String Unit :=
  .ok ()

/-- `RedisPublisher::test_connection` (src/redis/publisher.rs lines
165-189): a probe command; its error is reclassified (timeout vs connection)
but failure stays failure. -/
def test_connection (probe : Except String Unit) : Except String Unit :=
  match probe with
  | .ok _ => .ok ()
  | .error e =>
      if strContainsSub e "timeout" || strContainsSub e "timed out" then
        .error ("Redis connection test timeout: " ++ e)
      else .error ("Redis connection error: " ++ e)

/-- `SwapEventCollector::validate_event_data` (src/service/swap_collector.rs
lines 1147-1180): builds the builder from the given pieces and fails iff
`is_ready` is false. -/
def validate_event_data (version : UniswapVersion)
    (transaction_hash pool_address : String) (token_in token_out : TokenInfo)
    (amount_in amount_out user_address : String) : Except String Unit :=
  let builder : SwapEventBuilder :=
    { version := some version
      transaction_hash := some transaction_hash
      pool_address := some pool_address
      token_in := some token_in
      token_out := some token_out
      amount_in := some amount_in
      amount_out := some amount_out
      user_address := some user_address }
  if !builder.is_ready then
    .error ("Event validation failed: " ++
      String.intercalate ", " builder.validate)
  else .ok ()

/-- The fixed sample `TokenInfo` values used inside `health_check`
(src/service/swap_collector.rs lines 1118-1135). -/
def healthSampleTokenIn : TokenInfo :=
  { address := "0xA0b86a33E6441b8c4C3B1b1ef4F2faD6244b51a"
    symbol := "USDC", name := "USD Coin", decimals := 6 }

/-- Second fixed sample token of `health_check`. -/
def healthSampleTokenOut : TokenInfo :=
  { address := "0xC02aaA39b223FE8D0A0e5C4F27eAD9083C756Cc2"
    symbol := "WETH", name := "Wrapped Ether", decimals := 18 }

/-- `SwapEventCollector::health_check` (src/service/swap_collector.rs lines
1105-1143), as a function of the probe outcomes: the conjunction of
`test_connectivity(..).is_ok()`, `test_connection(..).is_ok()` and
`validate_event_data(..).is_ok()` on the fixed sample data. -/
def health_check (v2_query v3_query redis_probe : Except String Unit) :
    Bool :=
  let subgraph_healthy := exceptIsOk (test_connectivity v2_query v3_query)
  let redis_healthy := exceptIsOk (test_connection redis_probe)
  let validation_healthy := exceptIsOk (validate_event_data .V2
    "0x1234567890abcdef1234567890abcdef1234567890abcdef1234567890abcdef"
    "0x8ad599c3A0ff1De082011EFDDc58f1908eb6e6D8"
    healthSampleTokenIn healthSampleTokenOut
    "1000000" "0.0005" "0x742d35Cc6634C0532925a3b8D4C9db96C4b4d8b6")
  subgraph_healthy && redis_healthy && validation_healthy

/-! ## Concrete fixtures used by witnesses and counterexamples -/

/-- A small token0 sub-object as a V2 subgraph response would carry it. -/
def tok0Json : Json :=
  .obj [("id", .str "0xaaa"), ("symbol", .str "T0"), ("name", .str "Tok0"),
    ("decimals", .num 18)]

/-- A small token1 sub-object. -/
def tok1Json : Json :=
  .obj [("id", .str "0xbbb"), ("symbol", .str "T1"), ("name", .str "Tok1"),
    ("decimals", .num 6)]

/-- A `pair` sub-object holding the two tokens. -/
def pairJson : Json :=
  .obj [("id", .str "0xpool"), ("token0", tok0Json), ("token1", tok1Json)]

/-- A well-formed raw V2 swap record. -/
def swapRecordA : Json :=
  .obj [("id", .str "0xtxhash0001"), ("pair", pairJson),
    ("sender", .str "0xuser"), ("amount0_in", .str "5"),
    ("amount1_out", .str "7")]

/-- A second well-formed raw V2 swap record. -/
def swapRecordB : Json :=
  .obj [("id", .str "0xtxhash0002"), ("pair", pairJson),
    ("sender", .str "0xuser"), ("amount0_in", .str "11"),
    ("amount1_out", .str "13")]

/-- A third well-formed raw V2 swap record. -/
def swapRecordC : Json :=
  .obj [("id", .str "0xtxhash0003"), ("pair", pairJson),
    ("sender", .str "0xuser"), ("amount0_in", .str "17"),
    ("amount1_out", .str "19")]

/-- A raw V2 swap record carrying no amount fields at all. -/
def swapRecordNoAmounts : Json :=
  .obj [("id", .str "0xtxhash0004"), ("pair", pairJson),
    ("sender", .str "0xuser")]

/-- A structurally invalid raw record: the required `pair` sub-object is
missing. -/
def swapRecordMissingPair : Json :=
  .obj [("id", .str "0xtxhash0005")]

/-- A batch of five raw records, exactly one of them structurally invalid. -/
def batchOf5Json : Json :=
  .obj [("swaps", .arr [swapRecordA, swapRecordNoAmounts,
    swapRecordMissingPair, swapRecordB, swapRecordC])]

/-- A fully populated builder state with valid fields. -/
def validBuilder : SwapEventBuilder :=
  { version := some .V2, transaction_hash := some "0xabc"
    pool_address := some "0xpool", token_in := some healthSampleTokenIn
    token_out := some healthSampleTokenOut, amount_in := some "1"
    amount_out := some "2", user_address := some "0xuser" }

/-- The event `validBuilder.build` produces. -/
def validBuilderEvent : SwapEvent :=
  { id := "v2_0xabc", version := .V2, block_number := 0
    transaction_hash := "0xabc", pool_address := "0xpool"
    token_in := healthSampleTokenIn, token_out := healthSampleTokenOut
    amount_in := "1", amount_out := "2", user_address := "0xuser"
    pool_info := none }

/-- `validBuilder` with a pool address lacking the `0x` prefix. -/
def unprefixedPoolBuilder : SwapEventBuilder :=
  { validBuilder with pool_address := some "pooladdr" }

/-- `validBuilder` with a scientific-notation amount string. -/
def sciAmountBuilder : SwapEventBuilder :=
  { validBuilder with amount_in := some "12.5e9" }

/-- A raw V2 record whose non-zero amount-in sits on side 1
(`amount0_in = "0"`, `amount1_in = "7"`): under the V2 selection convention
the input side would be token1 with amount `"7"`. -/
def sideMismatchRecord : Json :=
  .obj [("id", .str "0xtxhash0007"), ("pair", pairJson),
    ("sender", .str "0xuser"), ("amount0_in", .str "0"),
    ("amount1_in", .str "7"), ("amount0_out", .str "0"),
    ("amount1_out", .str "3")]

/-- A typed V2 subgraph event with side 0 as the input side. -/
def witnessV2Event : UniswapV2SwapEvent :=
  { id := "0xtxhashw07", timestamp := "0"
    pair :=
      { id := "0xpool"
        token0 := { id := "0xaaa", symbol := "T0", name := "Tok0", decimals := 18 }
        token1 := { id := "0xbbb", symbol := "T1", name := "Tok1", decimals := 6 } }
    sender := "0xuser", amount0_in := "5", amount1_in := "0"
    amount0_out := "0", amount1_out := "9", «to» := "0xuser" }

/-- The canonical event `from_v2_subgraph` produces from `witnessV2Event`. -/
def witnessV2CanonicalEvent : SwapEvent :=
  { id := "v2_0xtxhashw07", version := .V2, transaction_hash := "0xtxhashw07"
    pool_address := "0xpool"
    token_in := { address := "0xaaa", symbol := "T0", name := "Tok0", decimals := 18 }
    token_out := { address := "0xbbb", symbol := "T1", name := "Tok1", decimals := 6 }
    amount_in := "5", amount_out := "9", user_address := "0xuser" }

/-- A GraphQL response carrying both a non-null `data` field and a non-empty
`errors` array. -/
def errorResponse : PoolQueryResult :=
  { data := some (Json.obj []), errors := some [{ message := "boom" }] }

/-- The canonical event `parse_v2_swap_event` produces from
`swapRecordNoAmounts`: both amounts defaulted to `"0"`. -/
def noAmountsEvent : SwapEvent :=
  { id := "v2_0xtxhash0004", version := .V2, transaction_hash := "0xtxhash0004"
    pool_address := "0xpool"
    token_in := { address := "0xaaa", symbol := "T0", name := "Tok0", decimals := 18 }
    token_out := { address := "0xbbb", symbol := "T1", name := "Tok1", decimals := 6 }
    amount_in := "0", amount_out := "0", user_address := "0xuser"
    pool_info := some { address := "0xpool", token0 := "0xaaa", token1 := "0xbbb" } }

/-! ## Helper lemmas -/

/-- Inversion for `SwapEventBuilder.build`: a successful build copies every
builder field into the event and derives `id` from the displayed version and
the transaction hash. -/
theorem build_ok_fields (b : SwapEventBuilder) (e : SwapEvent)
    (h : b.build = .ok e) :
    b.version = some e.version ∧
    b.transaction_hash = some e.transaction_hash ∧
    b.pool_address = some e.pool_address ∧
    b.token_in = some e.token_in ∧
    b.token_out = some e.token_out ∧
    b.amount_in = some e.amount_in ∧
    b.amount_out = some e.amount_out ∧
    b.user_address = some e.user_address ∧
    e.id = e.version.display ++ "_" ++ e.transaction_hash ∧
    e.pool_info = none := by
  obtain ⟨v, tx, pool, tin, tout, ain, aout, user⟩ := b
  rcases v with _ | v <;> rcases tx with _ | tx <;> rcases pool with _ | pool <;>
    rcases tin with _ | tin <;> rcases tout with _ | tout <;>
    rcases ain with _ | ain <;> rcases aout with _ | aout <;>
    rcases user with _ | user <;>
    simp only [SwapEventBuilder.build] at h <;>
    try exact (Except.noConfusion h)
  split_ifs at h <;> try exact (Except.noConfusion h)
  simp only [Except.ok.injEq] at h
  subst h
  simp

/-- `exceptIsOk ∘ build` agrees with the acceptance predicate of the amended
fail-closed claim. -/
theorem build_isOk_eq (b : SwapEventBuilder) :
    exceptIsOk b.build = buildAcceptanceSpec b := by
  obtain ⟨v, tx, pool, tin, tout, ain, aout, user⟩ := b
  rcases v with _ | v <;> rcases tx with _ | tx <;> rcases pool with _ | pool <;>
    rcases tin with _ | tin <;> rcases tout with _ | tout <;>
    rcases ain with _ | ain <;> rcases aout with _ | aout <;>
    rcases user with _ | user <;>
    simp only [SwapEventBuilder.build, buildAcceptanceSpec, exceptIsOk] <;>
    try rfl
  split_ifs <;> (try simp_all)
  all_goals (intros; simp_all)

/-- Folding the per-record step over a batch appends the successful parses
and adds one error per failed parse, for any starting accumulator. -/
theorem foldl_processStep (parse : Json → Except String SwapEvent) :
    ∀ (l : List Json) (acc : List SwapEvent × Nat),
      l.foldl
        (fun acc r =>
          match parse r with
          | .ok ev => (acc.1 ++ [ev], acc.2)
          | .error _ => (acc.1, acc.2 + 1)) acc =
      (acc.1 ++ l.filterMap (fun r => exceptToOption (parse r)),
       acc.2 + l.countP (fun r => !exceptIsOk (parse r)))
  | [], acc => by simp
  | r :: rest, acc => by
    rw [List.foldl_cons, foldl_processStep parse rest]
    cases hr : parse r <;>
      simp [hr, exceptToOption, exceptIsOk, List.countP_cons]
    omega

/-- `processRecords` returns exactly the successfully parsed events (in
order) and the number of failed records. -/
theorem processRecords_eq (parse : Json → Except String SwapEvent)
    (records : List Json) :
    processRecords parse records =
      (records.filterMap (fun r => exceptToOption (parse r)),
       records.countP (fun r => !exceptIsOk (parse r))) := by
  simpa [processRecords] using foldl_processStep parse records ([], 0)

/-- A cycle whose fetch succeeds with a `swaps` array and whose publish
succeeds returns `Ok`, publishes exactly the parseable records' events and
records one error per unparseable record. -/
theorem runCollectCycle_swaps (parse : Json → Except String SwapEvent)
    (records : List Json) :
    runCollectCycle parse (.ok (some (Json.obj [("swaps", Json.arr records)])))
      none =
    { result := none
      published := records.filterMap (fun r => exceptToOption (parse r))
      errors_recorded := records.countP (fun r => !exceptIsOk (parse r))
      events_processed :=
        (records.filterMap (fun r => exceptToOption (parse r))).length } := by
  rw [runCollectCycle,
    show (Json.get (Json.obj [("swaps", Json.arr records)]) "swaps").bind
        Json.asArr = some records from rfl]
  simp only [processRecords_eq]
  by_cases hemp :
      (records.filterMap (fun r => exceptToOption (parse r))).isEmpty
  · have hnil : records.filterMap (fun r => exceptToOption (parse r)) = [] :=
      List.isEmpty_iff.mp hemp
    simp [hnil]
  · simp_all

/-- Inversion for `parse_v2_swap_event`: a successfully parsed record yields
an event whose in-side is always token0/`amount0_in` and whose out-side is
always token1/`amount1_out`, with `"0"` substituted for an absent or
non-string amount. -/
theorem parse_v2_ok_shape (r : Json) (e : SwapEvent)
    (h : parse_v2_swap_event r = .ok e) :
    e.version = .V2 ∧
    e.amount_in = ((r.get "amount0_in").bind Json.asStr).getD "0" ∧
    e.amount_out = ((r.get "amount1_out").bind Json.asStr).getD "0" ∧
    e.user_address = ((r.get "sender").bind Json.asStr).getD "" ∧
    e.transaction_hash = ((r.get "id").bind Json.asStr).getD "" ∧
    ∃ pair token0 token1, r.get "pair" = some pair ∧
      pair.get "token0" = some token0 ∧ pair.get "token1" = some token1 ∧
      e.token_in = tokenInfoFromJson token0 ∧
      e.token_out = tokenInfoFromJson token1 ∧
      e.pool_address = ((pair.get "id").bind Json.asStr).getD "" := by
  unfold parse_v2_swap_event at h
  by_cases hins : hasSolanaInstruction r = true
  · simp [hins] at h
  rw [if_neg hins] at h
  rcases hpair : r.get "pair" with _ | pair
  · simp [hpair] at h
  simp only [hpair] at h
  rcases htok0 : pair.get "token0" with _ | token0
  · simp [htok0] at h
  simp only [htok0] at h
  by_cases hs0 : tokenIdLooksSolana token0 = true
  · simp [hs0] at h
  rw [if_neg hs0] at h
  rcases htok1 : pair.get "token1" with _ | token1
  · simp [htok1] at h
  simp only [htok1] at h
  by_cases hs1 : tokenIdLooksSolana token1 = true
  · simp [hs1] at h
  rw [if_neg hs1] at h
  cases hb : SwapEventBuilder.build
      { version := some .V2
        transaction_hash := some (((r.get "id").bind Json.asStr).getD "")
        pool_address := some (((pair.get "id").bind Json.asStr).getD "")
        token_in := some (tokenInfoFromJson token0)
        token_out := some (tokenInfoFromJson token1)
        amount_in := some (((r.get "amount0_in").bind Json.asStr).getD "0")
        amount_out := some (((r.get "amount1_out").bind Json.asStr).getD "0")
        user_address := some (((r.get "sender").bind Json.asStr).getD "") } with
  | error msg => simp [hb] at h
  | ok ev =>
    simp only [hb] at h
    obtain ⟨hv, htx, hpool, htin, htout, hain, haout, huser, -, -⟩ :=
      build_ok_fields _ ev hb
    rcases hpi : extract_pool_info pair with _ | pi <;> simp only [hpi] at h <;>
      simp only [Except.ok.injEq] at h <;> subst h <;>
      refine ⟨?_, ?_, ?_, ?_, ?_, pair, token0, token1, rfl, htok0, htok1,
        ?_, ?_, ?_⟩ <;> simp_all

/-- Inversion for `parse_v3_swap_event`: a successfully parsed record yields
an event whose in-side is always token0/`amount0` and whose out-side is
always token1/`amount1`, with `"0"` substituted for an absent or non-string
amount. -/
theorem parse_v3_ok_shape (r : Json) (e : SwapEvent)
    (h : parse_v3_swap_event r = .ok e) :
    e.version = .V3 ∧
    e.amount_in = ((r.get "amount0").bind Json.asStr).getD "0" ∧
    e.amount_out = ((r.get "amount1").bind Json.asStr).getD "0" ∧
    e.user_address = ((r.get "sender").bind Json.asStr).getD "" ∧
    e.transaction_hash = ((r.get "id").bind Json.asStr).getD "" ∧
    ∃ pool token0 token1, r.get "pool" = some pool ∧
      pool.get "token0" = some token0 ∧ pool.get "token1" = some token1 ∧
      e.token_in = tokenInfoFromJson token0 ∧
      e.token_out = tokenInfoFromJson token1 ∧
      e.pool_address = ((pool.get "id").bind Json.asStr).getD "" := by
  unfold parse_v3_swap_event at h
  by_cases hins : hasSolanaInstruction r = true
  · simp [hins] at h
  rw [if_neg hins] at h
  rcases hpool : r.get "pool" with _ | pool
  · simp [hpool] at h
  simp only [hpool] at h
  rcases htok0 : pool.get "token0" with _ | token0
  · simp [htok0] at h
  simp only [htok0] at h
  rcases htok1 : pool.get "token1" with _ | token1
  · simp [htok1] at h
  simp only [htok1] at h
  cases hb : SwapEventBuilder.build
      { version := some .V3
        transaction_hash := some (((r.get "id").bind Json.asStr).getD "")
        pool_address := some (((pool.get "id").bind Json.asStr).getD "")
        token_in := some (tokenInfoFromJson token0)
        token_out := some (tokenInfoFromJson token1)
        amount_in := some (((r.get "amount0").bind Json.asStr).getD "0")
        amount_out := some (((r.get "amount1").bind Json.asStr).getD "0")
        user_address := some (((r.get "sender").bind Json.asStr).getD "") } with
  | error msg => simp [hb] at h
  | ok ev =>
    simp only [hb] at h
    obtain ⟨hv, htx, hpool2, htin, htout, hain, haout, huser, -, -⟩ :=
      build_ok_fields _ ev hb
    rcases hpi : extract_pool_info pool with _ | pi <;> simp only [hpi] at h <;>
      simp only [Except.ok.injEq] at h <;> subst h <;>
      refine ⟨?_, ?_, ?_, ?_, ?_, pool, token0, token1, rfl, htok0, htok1,
        ?_, ?_, ?_⟩ <;> simp_all

/-! ## Claim theorems -/

/-- C1 (counterexample): with the configuration
`(initial = 100ms, max = 1000ms, multiplier = 2.0, max_attempts = 3)` and a
cycle that fails on every attempt, the retry wrapper sleeps 200ms and then
400ms — not the claimed backoff sequence 100ms, 200ms: the loop multiplies
the delay before the first sleep, so the first retry never waits
`initial_delay`. -/
theorem retry_first_sleep_not_initial_delay :
    collect_events_with_retry ⟨3, 100, 1000, 2⟩
      (fun _ => some "publish failed") =
      (some "publish failed", [200, 400]) ∧
    ([200, 400] : List Nat) ≠ [100, 200] := by
  constructor
  · have h1 : nextRetryDelay ⟨3, 100, 1000, 2⟩ 100 = 200 := by
      unfold nextRetryDelay; norm_num; rfl
    have h2 : nextRetryDelay ⟨3, 100, 1000, 2⟩ 200 = 400 := by
      unfold nextRetryDelay; norm_num; rfl
    simp only [collect_events_with_retry, retryLoop, h1, h2]
    norm_num
  · decide

/-- C1 (amended): with `max_attempts = 3` and every attempt failing, the
cycle makes exactly 2 more attempts after the first failure (three in all,
the list of sleeps has length 2), returns the third attempt's error as the
permanent failure, and the sleep before the k-th retry is the k-th iterate
of `delay ↦ min(⌊delay * multiplier⌋, max_delay)` starting from
`initial_delay` — i.e. `min(initial * multiplier^k, max_delay)` for
`multiplier ≥ 1`, skipping the plain `initial_delay` term of the claimed
sequence. -/
theorem retry_cycle_sleep_sequence (cfg : RetryConfig)
    (attemptResult : Nat → Option String) (hmax : cfg.max_attempts = 3)
    (hfail : ∀ n, (attemptResult n).isSome) :
    collect_events_with_retry cfg attemptResult =
      (attemptResult 2,
        [nextRetryDelay cfg cfg.initial_delay_ms,
         nextRetryDelay cfg (nextRetryDelay cfg cfg.initial_delay_ms)]) := by
  obtain ⟨e0, h0⟩ := Option.isSome_iff_exists.mp (hfail 0)
  obtain ⟨e1, h1⟩ := Option.isSome_iff_exists.mp (hfail 1)
  obtain ⟨e2, h2⟩ := Option.isSome_iff_exists.mp (hfail 2)
  simp [collect_events_with_retry, retryLoop, hmax, h0, h1, h2]

/-- C1 (witness): the amended statement evaluated at the spec's example
configuration. -/
theorem retry_cycle_sleep_sequence_witness :
    collect_events_with_retry ⟨3, 100, 1000, 2⟩ (fun _ => some "boom") =
      (some "boom", [200, 400]) := by
  have h := retry_cycle_sleep_sequence ⟨3, 100, 1000, 2⟩ (fun _ => some "boom")
    rfl (fun n => rfl)
  rw [h]
  have h1 : nextRetryDelay ⟨3, 100, 1000, 2⟩ 100 = 200 := by
    unfold nextRetryDelay; norm_num; rfl
  have h2 : nextRetryDelay ⟨3, 100, 1000, 2⟩ 200 = 400 := by
    unfold nextRetryDelay; norm_num; rfl
  simp [h1, h2]

/-- C2 (confirmed): per-record normalization failures are caught and counted
without affecting the other records or the cycle result: a fetched batch
always yields exactly the parseable records' events (published when the sink
succeeds) plus one recorded error per unparseable record, and the cycle
returns success; in particular the concrete batch of 5 records with 1
structurally invalid member publishes exactly 4 events, records exactly 1
error, and completes successfully. -/
theorem per_record_failures_isolated :
    (∀ (parse : Json → Except String SwapEvent) (records : List Json),
        processRecords parse records =
          (records.filterMap (fun r => exceptToOption (parse r)),
           records.countP (fun r => !exceptIsOk (parse r)))) ∧
    (∀ (parse : Json → Except String SwapEvent) (records : List Json),
        runCollectCycle parse
          (.ok (some (Json.obj [("swaps", Json.arr records)]))) none =
          { result := none
            published := records.filterMap (fun r => exceptToOption (parse r))
            errors_recorded :=
              records.countP (fun r => !exceptIsOk (parse r))
            events_processed :=
              (records.filterMap (fun r => exceptToOption (parse r))).length }) ∧
    (collect_v2_events (.ok (some batchOf5Json)) none).result = none ∧
    (collect_v2_events (.ok (some batchOf5Json)) none).published.length = 4 ∧
    (collect_v2_events (.ok (some batchOf5Json)) none).errors_recorded = 1 ∧
    (collect_v2_events (.ok (some batchOf5Json)) none).events_processed = 4 := by
  refine ⟨processRecords_eq, runCollectCycle_swaps, ?_, ?_, ?_, ?_⟩ <;> decide

/-- C3 (confirmed): `next_delay` returns `initial_delay` on attempt 0,
`min(initial_delay * multiplier^n, max_delay)` on attempt `n ≥ 1`, and
`None` (exhaustion) once the attempt counter equals `max_attempts`; `reset`
restores the initial attempt-0 state; the `(100ms, 1000ms, 2.0, 3)`
configuration yields 100, 200, 400 and then exhaustion. -/
theorem backoff_next_delay_contract :
    (∀ b : ExponentialBackoff, b.current_attempt = 0 → 0 < b.max_attempts →
      b.next_delay = (some b.initial_delay, { b with current_attempt := 1 })) ∧
    (∀ (b : ExponentialBackoff) (n : Nat), b.current_attempt = n → 1 ≤ n →
      n < b.max_attempts →
      b.next_delay =
        (some (min (b.initial_delay * b.multiplier ^ n) b.max_delay),
         { b with current_attempt := n + 1 })) ∧
    (∀ b : ExponentialBackoff, b.current_attempt = b.max_attempts →
      b.next_delay = (none, b)) ∧
    (∀ b : ExponentialBackoff, b.reset =
      ExponentialBackoff.new b.initial_delay b.max_delay b.multiplier
        b.max_attempts) ∧
    (ExponentialBackoff.new 100 1000 2 3).next_delay.1 = some 100 ∧
    (ExponentialBackoff.new 100 1000 2 3).next_delay.2.next_delay.1 =
      some 200 ∧
    (ExponentialBackoff.new 100 1000 2
      3).next_delay.2.next_delay.2.next_delay.1 = some 400 ∧
    (ExponentialBackoff.new 100 1000 2
      3).next_delay.2.next_delay.2.next_delay.2.next_delay.1 = none := by
  refine ⟨?_, ?_, ?_, ?_, ?_, ?_, ?_, ?_⟩
  · intro b h0 hpos
    unfold ExponentialBackoff.next_delay
    rw [if_neg (by omega), if_pos h0]
    simp [h0]
  · intro b n hn h1 hlt
    subst hn
    unfold ExponentialBackoff.next_delay
    rw [if_neg (by omega), if_neg (by omega)]
    rcases le_or_lt (b.initial_delay * b.multiplier ^ b.current_attempt)
        b.max_delay with hle | hgt
    · rw [if_neg (not_lt.mpr hle), min_eq_left hle]
    · rw [if_pos hgt, min_eq_right hgt.le]
  · intro b h
    unfold ExponentialBackoff.next_delay
    rw [if_pos (by omega)]
  · intro b
    rfl
  · simp [ExponentialBackoff.next_delay, ExponentialBackoff.new]
  · simp [ExponentialBackoff.next_delay, ExponentialBackoff.new]
    norm_num
  · simp [ExponentialBackoff.next_delay, ExponentialBackoff.new]
    norm_num
  · simp [ExponentialBackoff.next_delay, ExponentialBackoff.new]

/-- C3 (witness): the capped-growth case evaluated at attempt 2 of the
example configuration. -/
theorem backoff_next_delay_contract_witness :
    (⟨100, 1000, 2, 3, 2⟩ : ExponentialBackoff).next_delay =
      (some (min ((100 : Rat) * 2 ^ 2) 1000), ⟨100, 1000, 2, 3, 3⟩) :=
  backoff_next_delay_contract.2.1 ⟨100, 1000, 2, 3, 2⟩ 2 rfl (by norm_num)
    (by norm_num)

/-- C4 (counterexample): the id built for version V2 and transaction hash
`0xabc` is `"v2_0xabc"` — the `Display` impl renders the version lowercase —
not the `"V2_0xabc"` of the claim. -/
theorem swap_event_id_lowercase_counterexample :
    (exceptToOption validBuilder.build).map (fun e => e.id) =
      some "v2_0xabc" ∧
    "v2_0xabc" ≠ "V2_0xabc" := by
  constructor <;> decide

/-- C4 (amended): every successfully built event has
`id = "{version}_{transaction_hash}"` with the version rendered by its
`Display` impl (lowercase `v2`/`v3`), and the id is deterministic per
(version, transaction-hash) pair. -/
theorem swap_event_id_format :
    (∀ (b : SwapEventBuilder) (e : SwapEvent), b.build = .ok e →
        e.id = e.version.display ++ "_" ++ e.transaction_hash) ∧
    (∀ (b₁ b₂ : SwapEventBuilder) (e₁ e₂ : SwapEvent), b₁.build = .ok e₁ →
        b₂.build = .ok e₂ → b₁.version = b₂.version →
        b₁.transaction_hash = b₂.transaction_hash → e₁.id = e₂.id) := by
  constructor
  · intro b e h
    exact (build_ok_fields b e h).2.2.2.2.2.2.2.2.1
  · intro b₁ b₂ e₁ e₂ h1 h2 hv htx
    obtain ⟨hv1, htx1, _, _, _, _, _, _, hid1, -⟩ := build_ok_fields b₁ e₁ h1
    obtain ⟨hv2, htx2, _, _, _, _, _, _, hid2, -⟩ := build_ok_fields b₂ e₂ h2
    rw [hid1, hid2]
    rw [hv1, hv2] at hv
    rw [htx1, htx2] at htx
    simp only [Option.some.injEq] at hv htx
    rw [hv, htx]

/-- C4 (witness): the id format evaluated on the concrete valid builder. -/
theorem swap_event_id_format_witness :
    validBuilderEvent.id =
      validBuilderEvent.version.display ++ "_" ++
        validBuilderEvent.transaction_hash :=
  swap_event_id_format.1 validBuilder validBuilderEvent rfl

/-- C5 (counterexample): a fully populated builder whose pool address lacks
the `0x` chain-address prefix still builds successfully — the prefix check
is only a warning in `validate`, not a build failure as the claim states. -/
theorem build_accepts_unprefixed_address :
    unprefixedPoolBuilder.pool_address = some "pooladdr" ∧
    strStartsWith "pooladdr" "0x" = false ∧
    exceptIsOk unprefixedPoolBuilder.build = true := by
  refine ⟨rfl, by decide, by decide⟩

/-- C5 (amended): `build` fails exactly when a required field is missing,
the transaction hash, pool address, user address or a token address is
empty, or an amount is empty or not digits-and-dot; address-prefix
violations are reported only as `validate` warnings and do not fail
`build`. -/
theorem build_fails_closed_exactly (b : SwapEventBuilder) :
    exceptIsOk b.build = buildAcceptanceSpec b :=
  build_isOk_eq b

/-- C6 (confirmed): any amount string containing a character other than an
ASCII digit or `'.'` (such as `"12.5e9"`) makes `build` fail, on every
builder state carrying it as `amount_in` or `amount_out`. -/
theorem build_rejects_non_numeric_amount (b : SwapEventBuilder) (a : String)
    (hmem : b.amount_in = some a ∨ b.amount_out = some a)
    (hbad : isNumericAmount a = false) :
    exceptIsOk b.build = false := by
  rw [build_isOk_eq]
  obtain ⟨v, tx, pool, tin, tout, ain, aout, user⟩ := b
  rcases v with _ | v <;> rcases tx with _ | tx <;> rcases pool with _ | pool <;>
    rcases tin with _ | tin <;> rcases tout with _ | tout <;>
    rcases ain with _ | ain <;> rcases aout with _ | aout <;>
    rcases user with _ | user <;>
    simp_all [buildAcceptanceSpec]
  intros
  rcases hmem with h | h <;> simp_all

/-- C6 (witness): the claim's `"12.5e9"` on an otherwise-valid builder. -/
theorem build_rejects_non_numeric_amount_witness :
    exceptIsOk sciAmountBuilder.build = false :=
  build_rejects_non_numeric_amount sciAmountBuilder "12.5e9" (Or.inl rfl)
    (by decide)

/-- C7 (counterexample): the pipeline's `parse_v2_swap_event` performs no
side selection: on a record with `amount0_in = "0"` and `amount1_in = "7"`
it still takes token0 (`0xaaa`) and `"0"` as the in side, whereas the V2
convention (non-zero amount-in side selects the input) requires token1
(`0xbbb`) and `"7"`. -/
theorem pipeline_parse_ignores_side_selection :
    sideMismatchRecord.get "amount0_in" = some (.str "0") ∧
    sideMismatchRecord.get "amount1_in" = some (.str "7") ∧
    (exceptToOption (parse_v2_swap_event sideMismatchRecord)).map
        (fun e => (e.token_in.address, e.amount_in)) = some ("0xaaa", "0") ∧
    (("0xaaa", "0") : String × String) ≠ ("0xbbb", "7") := by
  refine ⟨rfl, rfl, by decide, by decide⟩

/-- C7 (amended): the source-specific in/out selection conventions hold for
`SwapEvent::from_v2_subgraph` (zero-string test on `amount0_in`/
`amount0_out`) and `SwapEvent::from_v3_subgraph` (sign of the parsed
`amount0`; negative selects token0 as input), but not for the polling
pipeline's parse functions: `parse_v2_swap_event` always uses
token0/`amount0_in` as the in side and token1/`amount1_out` as the out
side. -/
theorem side_selection_convention :
    (∀ (v2 : UniswapV2SwapEvent) (pool user : String) (e : SwapEvent),
        SwapEvent.from_v2_subgraph v2 pool user = .ok e →
        ((v2.amount0_in ≠ "0" →
            e.token_in = tokenInfoOf v2.pair.token0 ∧
            e.amount_in = v2.amount0_in) ∧
         (v2.amount0_in = "0" →
            e.token_in = tokenInfoOf v2.pair.token1 ∧
            e.amount_in = v2.amount1_in) ∧
         (v2.amount0_out ≠ "0" →
            e.token_out = tokenInfoOf v2.pair.token0 ∧
            e.amount_out = v2.amount0_out) ∧
         (v2.amount0_out = "0" →
            e.token_out = tokenInfoOf v2.pair.token1 ∧
            e.amount_out = v2.amount1_out))) ∧
    (∀ (v3 : UniswapV3SwapEvent) (pool user : String) (e : SwapEvent)
        (q : Rat),
        SwapEvent.from_v3_subgraph v3 pool user = .ok e →
        parseF64 v3.amount0 = some q →
        ((q < 0 →
            e.token_in = tokenInfoOf v3.pool.token0 ∧
            e.amount_in = v3.amount0 ∧
            e.token_out = tokenInfoOf v3.pool.token1 ∧
            e.amount_out = v3.amount1) ∧
         (0 < q →
            e.token_out = tokenInfoOf v3.pool.token0 ∧
            e.amount_out = v3.amount0 ∧
            e.token_in = tokenInfoOf v3.pool.token1 ∧
            e.amount_in = v3.amount1))) ∧
    (∀ (r : Json) (e : SwapEvent), parse_v2_swap_event r = .ok e →
        e.amount_in = ((r.get "amount0_in").bind Json.asStr).getD "0" ∧
        e.amount_out = ((r.get "amount1_out").bind Json.asStr).getD "0" ∧
        ∃ pair token0 token1, r.get "pair" = some pair ∧
          pair.get "token0" = some token0 ∧
          pair.get "token1" = some token1 ∧
          e.token_in = tokenInfoFromJson token0 ∧
          e.token_out = tokenInfoFromJson token1) := by
  refine ⟨?_, ?_, ?_⟩
  · intro v2 pool user e h
    unfold SwapEvent.from_v2_subgraph at h
    obtain ⟨-, -, -, htin, htout, hain, haout, -, -, -⟩ :=
      build_ok_fields _ e h
    dsimp only at htin htout hain haout
    refine ⟨?_, ?_, ?_, ?_⟩
    · intro hne
      simp only [if_pos hne, Option.some.injEq] at htin hain
      exact ⟨htin.symm, hain.symm⟩
    · intro heq
      simp only [if_neg (not_not_intro heq), Option.some.injEq] at htin hain
      exact ⟨htin.symm, hain.symm⟩
    · intro hne
      simp only [if_pos hne, Option.some.injEq] at htout haout
      exact ⟨htout.symm, haout.symm⟩
    · intro heq
      simp only [if_neg (not_not_intro heq), Option.some.injEq] at htout haout
      exact ⟨htout.symm, haout.symm⟩
  · intro v3 pool user e q h hq
    unfold SwapEvent.from_v3_subgraph at h
    rw [hq] at h
    simp only [Option.getD_some] at h
    obtain ⟨-, -, -, htin, htout, hain, haout, -, -, -⟩ :=
      build_ok_fields _ e h
    dsimp only at htin htout hain haout
    constructor
    · intro hneg
      simp only [if_pos hneg, if_neg (not_lt.mpr hneg.le),
        Option.some.injEq] at htin htout hain haout
      exact ⟨htin.symm, hain.symm, htout.symm, haout.symm⟩
    · intro hpos
      simp only [if_pos hpos, if_neg (not_lt.mpr hpos.le),
        Option.some.injEq] at htin htout hain haout
      exact ⟨htout.symm, haout.symm, htin.symm, hain.symm⟩
  · intro r e h
    obtain ⟨-, hain, haout, -, -, pair, token0, token1, hpair, htok0, htok1,
      htin, htout, -⟩ := parse_v2_ok_shape r e h
    exact ⟨hain, haout, pair, token0, token1, hpair, htok0, htok1, htin, htout⟩

/-- C7 (witness): the V2 convention applied to a concrete event whose side 0
is the input side. -/
theorem side_selection_convention_witness :
    witnessV2CanonicalEvent.token_in =
      tokenInfoOf witnessV2Event.pair.token0 ∧
    witnessV2CanonicalEvent.amount_in = witnessV2Event.amount0_in :=
  (side_selection_convention.1 witnessV2Event "0xpool" "0xuser"
    witnessV2CanonicalEvent rfl).1 (by decide)

/-- C8 (confirmed): after a successful transport round-trip (2xx status,
deserializable body), a present non-empty `errors` array makes the query
fail — also when `data` is present — while an absent or empty `errors`
array yields the response as success. -/
theorem graphql_errors_hard_failure :
    (∀ (status : Nat) (result : PoolQueryResult) (errs : List GraphQLError),
        200 ≤ status → status < 300 → result.errors = some errs →
        errs ≠ [] →
        exceptIsOk (query_subgraph (.ok (status, some result))) = false) ∧
    (∀ (status : Nat) (result : PoolQueryResult), 200 ≤ status →
        status < 300 → (result.errors = none ∨ result.errors = some []) →
        query_subgraph (.ok (status, some result)) = .ok result) := by
  constructor
  · intro status result errs h1 h2 herr hne
    simp [query_subgraph, checkGraphQLErrors, herr, h1, h2, hne, exceptIsOk]
  · intro status result h1 h2 herr
    rcases herr with herr | herr <;>
      simp [query_subgraph, checkGraphQLErrors, herr, h1, h2]

/-- C8 (witness): a response with non-null `data` and one GraphQL error is a
hard failure. -/
theorem graphql_errors_hard_failure_witness :
    errorResponse.data.isSome = true ∧
    exceptIsOk (query_subgraph (.ok (200, some errorResponse))) = false :=
  ⟨rfl, graphql_errors_hard_failure.1 200 errorResponse
    [{ message := "boom" }] (by norm_num) (by norm_num) rfl (by decide)⟩

/-- C9 (code bug): `test_connectivity` logs its two probe outcomes but
returns `Ok(())` unconditionally, so `health_check` reports healthy even
when both subgraph probes fail (here with the Redis probe succeeding) —
contradicting the spec, which requires both collaborators' probes to
succeed. -/
theorem health_check_ignores_subgraph_probe :
    test_connectivity (.error "connection refused")
      (.error "connection refused") = .ok () ∧
    health_check (.error "connection refused") (.error "connection refused")
      (.ok ()) = true :=
  ⟨rfl, by decide⟩

/-- C10 (confirmed): the pipeline parse functions substitute `"0"` for an
absent or non-string amount field instead of rejecting the record, for both
source variants; the concrete record with no amount fields still yields a
canonical event with both amounts `"0"`. -/
theorem missing_amounts_default_to_zero :
    (∀ (r : Json) (e : SwapEvent),
        (r.get "amount0_in").bind Json.asStr = none →
        parse_v2_swap_event r = .ok e → e.amount_in = "0") ∧
    (∀ (r : Json) (e : SwapEvent),
        (r.get "amount1_out").bind Json.asStr = none →
        parse_v2_swap_event r = .ok e → e.amount_out = "0") ∧
    (∀ (r : Json) (e : SwapEvent),
        (r.get "amount0").bind Json.asStr = none →
        parse_v3_swap_event r = .ok e → e.amount_in = "0") ∧
    (∀ (r : Json) (e : SwapEvent),
        (r.get "amount1").bind Json.asStr = none →
        parse_v3_swap_event r = .ok e → e.amount_out = "0") ∧
    (exceptToOption (parse_v2_swap_event swapRecordNoAmounts)).map
      (fun e => (e.amount_in, e.amount_out)) = some ("0", "0") := by
  refine ⟨?_, ?_, ?_, ?_, by decide⟩
  · intro r e hn h
    rw [(parse_v2_ok_shape r e h).2.1, hn]
    rfl
  · intro r e hn h
    rw [(parse_v2_ok_shape r e h).2.2.1, hn]
    rfl
  · intro r e hn h
    rw [(parse_v3_ok_shape r e h).2.1, hn]
    rfl
  · intro r e hn h
    rw [(parse_v3_ok_shape r e h).2.2.1, hn]
    rfl

/-- C10 (witness): the default applied to the concrete record with no
amount fields. -/
theorem missing_amounts_default_to_zero_witness :
    noAmountsEvent.amount_in = "0" :=
  missing_amounts_default_to_zero.1 swapRecordNoAmounts noAmountsEvent rfl rfl

end UniswapRelay
